import Mathlib

/-
  Verification development for adv_train_cifar.py (robust_overfitting).

  Shallow embedding conventions:
  * Python floats are modelled as rationals.
  * Image tensors are flattened to lists of rationals; a batch is a list of
    images plus a list of integer labels.
  * External collaborators are parameters: the classifier forward pass, the
    cross-entropy criterion, random draws (the Beta sample and the index
    permutation of mixup), and the transcendental np.cos of the cosine
    schedule.
-/

namespace AdvTrain

/-- ATTACK_LIST, line 226 of adv_train_cifar.py. -/
def ATTACK_LIST : List String :=
  ["pixelattack", "spatialtransformation", "squareattack", "fgsm", "deepfool",
   "bim", "cw", "pgd", "autoattack", "autopgd", "newtonfool"]

/-- The second accepted family of attack names, line 236. -/
def LOADED_ATTACKS : List String := ["ffgsm", "mifgsm", "tpgd"]

/-- The choices list of the --lr-schedule CLI option, line 86. -/
def LR_SCHEDULE_CHOICES : List String :=
  ["superconverge", "piecewise", "linear", "piecewisesmoothed",
   "piecewisezoom", "onedrop", "multipledecay", "cosine"]

/-- The piecewise learning-rate schedule, lines 406-413: lr_max while
    t / epochs is below one half, a tenth of it below three quarters, and a
    hundredth of it otherwise. -/
def piecewise_lr (epochs : ℕ) (lr_max : ℚ) (t : ℚ) : ℚ :=
  if t / (epochs : ℚ) < 1/2 then lr_max
  else if t / (epochs : ℚ) < 3/4 then lr_max / 10
  else lr_max / 100

/-- np.interp over an explicit list of sorted (x, y) knots: constant before
    the first knot, linear between consecutive knots, constant after the
    last knot. Used by the superconverge and linear schedules
    (lines 405 and 415). -/
def interpSeg : List (ℚ × ℚ) → ℚ → ℚ
  | [], _ => 0
  | [(_, y)], _ => y
  | (x1, y1) :: (x2, y2) :: rest, t =>
    if t < x1 then y1
    else if t ≤ x2 then y1 + (y2 - y1) * (t - x1) / (x2 - x1)
    else interpSeg ((x2, y2) :: rest) t

/-- The onedrop schedule, lines 417-421. -/
def onedrop_lr (lr_drop_epoch : ℕ) (lr_max lr_one_drop : ℚ) (t : ℚ) : ℚ :=
  if t < (lr_drop_epoch : ℚ) then lr_max else lr_one_drop

/-- The multipledecay schedule, lines 423-424; the Python floor division
    t // (epochs // 10) becomes an integer floor of a rational quotient. -/
def multipledecay_lr (epochs : ℕ) (lr_max : ℚ) (t : ℚ) : ℚ :=
  lr_max - ((⌊t / ((epochs / 10 : ℕ) : ℚ)⌋ : ℚ)) * (lr_max / 10)

/-- The cosine schedule, lines 426-427. np.cos composed with the scaling by
    pi is an external primitive, passed as cosPi, so that
    cosPi u stands for cos (u * pi). -/
def cosine_lr (epochs : ℕ) (lr_max : ℚ) (cosPi : ℚ → ℚ) (t : ℚ) : ℚ :=
  lr_max * (1/2) * (1 + cosPi (t / (epochs : ℚ)))

/-- The lr-schedule dispatch chain, lines 404-427. The if/elif chain binds a
    schedule only for six of the eight CLI choices; none models the name
    lr_schedule remaining unbound for the other two. Knot abscissas of the
    interpolating schedules use Python integer division on epochs, hence
    natural-number division here. -/
def lrScheduleFor (sched : String) (epochs : ℕ) (lr_max lr_one_drop : ℚ)
    (lr_drop_epoch : ℕ) (cosPi : ℚ → ℚ) : Option (ℚ → ℚ) :=
  if sched = "superconverge" then
    some (interpSeg [((0 : ℚ), 0), (((epochs * 2 / 5 : ℕ) : ℚ), lr_max), (((epochs : ℕ) : ℚ), 0)])
  else if sched = "piecewise" then
    some (piecewise_lr epochs lr_max)
  else if sched = "linear" then
    some (interpSeg [((0 : ℚ), lr_max), (((epochs / 3 : ℕ) : ℚ), lr_max),
      (((epochs * 2 / 3 : ℕ) : ℚ), lr_max / 10), (((epochs : ℕ) : ℚ), lr_max / 100)])
  else if sched = "onedrop" then
    some (onedrop_lr lr_drop_epoch lr_max lr_one_drop)
  else if sched = "multipledecay" then
    some (multipledecay_lr epochs lr_max)
  else if sched = "cosine" then
    some (cosine_lr epochs lr_max cosPi)
  else none

/-- The epoch-fractional learning rate of training step i of an epoch,
    line 496: lr_schedule (epoch + (i + 1) / len (train_batches)). -/
def stepLr (sched : ℚ → ℚ) (epoch i num_batches : ℕ) : ℚ :=
  sched ((epoch : ℚ) + ((i : ℚ) + 1) / (num_batches : ℚ))

/-- Line 496 as executed by Python: the name lr_schedule is looked up first;
    when the dispatch chain bound nothing the lookup itself raises NameError
    before any learning rate is produced. -/
def stepLrLookup (sched? : Option (ℚ → ℚ)) (epoch i num_batches : ℕ) :
    Except String ℚ :=
  match sched? with
  | none => Except.error "NameError: name lr_schedule is not defined"
  | some f => Except.ok (stepLr f epoch i num_batches)

/-- A batch as produced by Batches.__iter__, line 48: an input dict entry and
    a target dict entry. -/
structure Batch where
  input : List (List ℚ)
  target : List ℤ
deriving Repr, DecidableEq

/-- Line 489: enumerate (zip (train_batches, train_robust_batches)). The loop
    body of lines 490-529 runs once per element of this list. -/
def epochPairs (clean adv : List Batch) : List (Batch × Batch) :=
  clean.zip adv

/-- Indexing x[index, :] of line 64: the list of entries of x selected at the
    positions of index (out-of-range positions give the default, which the
    theorems exclude by a validity hypothesis). -/
def permuteBy {α : Type} (index : List ℕ) (x : List α) (d : α) : List α :=
  index.map (fun i => x.getD i d)

/-- The quadruple returned by mixup_data, line 66. -/
structure MixupResult where
  mixed_x : List (List ℚ)
  y_a : List ℤ
  y_b : List ℤ
  lam : ℚ

/-- mixup_data, lines 54-66. The Beta(alpha, alpha) draw and the random
    permutation of batch indices are external randomness, passed as betaDraw
    and index; lam is the draw when alpha > 0 and 1 otherwise, and the
    blended batch is lam * x + (1 - lam) * x[index, :] entrywise. -/
def mixup_data (x : List (List ℚ)) (y : List ℤ) (alpha : ℚ)
    (betaDraw : ℚ) (index : List ℕ) : MixupResult :=
  let lam : ℚ := if alpha > 0 then betaDraw else 1
  let xperm := permuteBy index x []
  { mixed_x := List.zipWith
      (fun xi xpi => List.zipWith (fun a b => lam * a + (1 - lam) * b) xi xpi)
      x xperm
    y_a := y
    y_b := permuteBy index y 0
    lam := lam }

/-- mixup_criterion, lines 69-70. -/
def mixup_criterion (criterion : List (List ℚ) → List ℤ → ℚ)
    (pred : List (List ℚ)) (y_a y_b : List ℤ) (lam : ℚ) : ℚ :=
  lam * criterion pred y_a + (1 - lam) * criterion pred y_b

/-- One optimizer parameter group, the part relevant to lr scheduling. -/
structure ParamGroup where
  lr : ℚ
  weight_decay : ℚ
deriving Repr, DecidableEq

/-- The parameter groups handed to torch.optim.SGD, lines 376-388: with L2
    configured (args.l2 nonzero) two groups, the decay group with
    weight_decay = l2 and the no-decay group with weight_decay = 0; otherwise
    a single group with the constructor default weight decay 5e-4. Every
    group starts at the constructor learning rate lr = args.lr_max. -/
def initParamGroups (l2 lr_max : ℚ) : List ParamGroup :=
  if l2 ≠ 0 then
    [{ lr := lr_max, weight_decay := l2 }, { lr := lr_max, weight_decay := 0 }]
  else
    [{ lr := lr_max, weight_decay := 5/10000 }]

/-- Line 497: opt.param_groups[0].update(lr=lr) writes the new rate into the
    first parameter group only. -/
def updateGroup0 (groups : List ParamGroup) (lr : ℚ) : List ParamGroup :=
  match groups with
  | [] => []
  | g :: gs => { g with lr := lr } :: gs

/-- The normalized proportions of the balanced branch, lines 295-298. -/
def balancedProportions (ratios : List ℕ) : List ℚ :=
  ratios.map (fun x => (x : ℚ) / ((ratios.sum : ℕ) : ℚ))

/-- The per-attack sample counts of the balanced branch, lines 299-316,
    mirroring the loop with its sum_samples accumulator: every attack but the
    last receives int (proportion * total) samples, which on these
    nonnegative values is the floor, and the last receives
    total - sum_samples. -/
def balancedCountsGo (total sum_samples : ℤ) : List ℚ → List ℤ
  | [] => []
  | [_] => [total - sum_samples]
  | p :: q :: rest =>
    ⌊p * (total : ℚ)⌋ ::
      balancedCountsGo total (sum_samples + ⌊p * (total : ℚ)⌋) (q :: rest)

/-- The full balanced count list for a ratio list, with total = 50000 at the
    call site (line 311). -/
def balancedCounts (ratios : List ℕ) (total : ℤ) : List ℤ :=
  balancedCountsGo total 0 (balancedProportions ratios)

/-- Claim C5: the piecewise learning-rate schedule is a pure function of t, E
    and lr_max: for every t and E > 0 it returns lr_max when t/E < 1/2,
    lr_max/10 when 1/2 <= t/E < 3/4, and lr_max/100 otherwise; in particular
    it maps 0.4*E to lr_max, 0.6*E to lr_max/10 and 0.9*E to lr_max/100, and
    two calls with the same t yield identical values. -/
theorem C5_piecewise_schedule (t : ℚ) (E : ℕ) (lr_max : ℚ) (hE : 0 < E) :
    (t / (E : ℚ) < 1/2 → piecewise_lr E lr_max t = lr_max) ∧
    (1/2 ≤ t / (E : ℚ) → t / (E : ℚ) < 3/4 → piecewise_lr E lr_max t = lr_max / 10) ∧
    (3/4 ≤ t / (E : ℚ) → piecewise_lr E lr_max t = lr_max / 100) ∧
    piecewise_lr E lr_max ((2/5) * (E : ℚ)) = lr_max ∧
    piecewise_lr E lr_max ((3/5) * (E : ℚ)) = lr_max / 10 ∧
    piecewise_lr E lr_max ((9/10) * (E : ℚ)) = lr_max / 100 ∧
    piecewise_lr E lr_max t = piecewise_lr E lr_max t := by
  have hE0 : ((E : ℚ)) ≠ 0 := by
    exact_mod_cast Nat.pos_iff_ne_zero.mp hE
  have hdiv : ∀ c : ℚ, c * (E : ℚ) / (E : ℚ) = c := fun c => by
    field_simp
  refine ⟨?_, ?_, ?_, ?_, ?_, ?_, rfl⟩
  · intro h
    unfold piecewise_lr
    rw [if_pos h]
  · intro h1 h2
    unfold piecewise_lr
    rw [if_neg (not_lt.mpr h1), if_pos h2]
  · intro h
    unfold piecewise_lr
    rw [if_neg (not_lt.mpr (le_trans (by norm_num) h)), if_neg (not_lt.mpr h)]
  · unfold piecewise_lr
    rw [hdiv]
    norm_num
  · unfold piecewise_lr
    rw [hdiv]
    norm_num
  · unfold piecewise_lr
    rw [hdiv]
    norm_num

/-- Witness for C5 at t = 4, E = 10, lr_max = 1. -/
theorem C5_piecewise_schedule_witness :
    0 < 10 ∧ piecewise_lr 10 1 4 = 1 := by
  refine ⟨by norm_num, ?_⟩
  exact (C5_piecewise_schedule 4 10 1 (by norm_num)).1 (by norm_num)

/-- Claim C7: for every epoch the number of training steps executed equals
    the minimum of the clean-batch count and the adversarial-batch count;
    the zip of line 489 stops at the exhausted sequence without an error. -/
theorem C7_epoch_step_count (clean adv : List Batch) :
    (epochPairs clean adv).length = min clean.length adv.length := by
  simp [epochPairs]

lemma zipWith_one_mix (xi xpi : List ℚ) (h : xi.length ≤ xpi.length) :
    List.zipWith (fun a b => 1 * a + (1 - 1) * b) xi xpi = xi := by
  induction xi generalizing xpi with
  | nil => simp
  | cons a t ih =>
    cases xpi with
    | nil => simp at h
    | cons b t' =>
      simp only [List.length_cons] at h
      have h' : t.length ≤ t'.length := Nat.succ_le_succ_iff.mp h
      simp only [List.zipWith_cons_cons, List.cons.injEq]
      exact ⟨by ring, ih t' h'⟩

lemma zipWith_mix_batch (m : ℕ) (x xp : List (List ℚ))
    (hx : ∀ e ∈ x, e.length = m) (hxp : ∀ e ∈ xp, e.length = m)
    (hlen : x.length ≤ xp.length) :
    List.zipWith
      (fun xi xpi => List.zipWith (fun a b => 1 * a + (1 - 1) * b) xi xpi)
      x xp = x := by
  induction x generalizing xp with
  | nil => simp
  | cons a t ih =>
    cases xp with
    | nil => simp at hlen
    | cons b t' =>
      simp only [List.length_cons] at hlen
      simp only [List.zipWith_cons_cons, List.cons.injEq]
      refine ⟨?_, ih t' (fun e he => hx e (List.mem_cons_of_mem _ he))
        (fun e he => hxp e (List.mem_cons_of_mem _ he))
        (Nat.succ_le_succ_iff.mp hlen)⟩
      apply zipWith_one_mix
      rw [hx a (List.mem_cons_self _ _), hxp b (List.mem_cons_self _ _)]

/-- Claim C6: for every batch and every concentration parameter alpha <= 0,
    mixup_data is the identity on the data: mixed inputs equal to x, first
    label set y and mixing coefficient 1, for every valid index permutation
    and uniform image length. -/
theorem C6_mixup_identity (x : List (List ℚ)) (y : List ℤ) (alpha betaDraw : ℚ)
    (index : List ℕ) (m : ℕ)
    (halpha : alpha ≤ 0)
    (hidx : index.length = x.length)
    (hvalid : ∀ i ∈ index, i < x.length)
    (hm : ∀ e ∈ x, e.length = m) :
    (mixup_data x y alpha betaDraw index).mixed_x = x ∧
    (mixup_data x y alpha betaDraw index).y_a = y ∧
    (mixup_data x y alpha betaDraw index).lam = 1 := by
  have hlam : ¬ alpha > 0 := not_lt.mpr halpha
  refine ⟨?_, rfl, by simp [mixup_data, hlam]⟩
  have hxp : ∀ e ∈ permuteBy index x [], e.length = m := by
    intro e he
    simp only [permuteBy, List.mem_map] at he
    obtain ⟨i, hi, hei⟩ := he
    have hil : i < x.length := hvalid i hi
    rw [← hei, List.getD_eq_getElem x [] hil]
    exact hm _ (List.getElem_mem hil)
  have hlen : x.length ≤ (permuteBy index x []).length := by
    simp [permuteBy, hidx]
  simp only [mixup_data, if_neg hlam]
  exact zipWith_mix_batch m x (permuteBy index x []) hm hxp hlen

/-- Witness for C6 on a two-image batch with the swap permutation. -/
theorem C6_mixup_identity_witness :
    (mixup_data [[1, 2], [3, 4]] [0, 1] 0 (1/2) [1, 0]).mixed_x = [[1, 2], [3, 4]] ∧
    (mixup_data [[1, 2], [3, 4]] [0, 1] 0 (1/2) [1, 0]).y_a = [0, 1] ∧
    (mixup_data [[1, 2], [3, 4]] [0, 1] 0 (1/2) [1, 0]).lam = 1 :=
  C6_mixup_identity [[1, 2], [3, 4]] [0, 1] 0 (1/2) [1, 0] 2
    (by norm_num) (by decide) (by decide) (by decide)

/-- Counterexample for claim C3: with L2 regularization configured
    (l2 = 1/100), at epoch 60 of a 110-epoch piecewise run, step 0 of 100
    batches, the scheduled rate is lr_max / 10 = 1/100, but after the
    update of line 497 the second parameter group (the no-decay group) still
    carries lr_max = 1/10, so not every optimizer parameter group receives
    the epoch-fractional learning rate. -/
theorem C3_only_group0_counterexample :
    ((updateGroup0 (initParamGroups (1/100) (1/10))
        (stepLr (piecewise_lr 110 (1/10)) 60 0 100)).getD 1 ⟨0, 0⟩).lr
      ≠ stepLr (piecewise_lr 110 (1/10)) 60 0 100 := by
  have hlr : stepLr (piecewise_lr 110 (1/10)) 60 0 100 = 1/100 := by
    rw [stepLr]
    unfold piecewise_lr
    norm_num
  rw [hlr]
  norm_num [updateGroup0, initParamGroups]

/-- Claim C3, amended: the optimizer update of line 497 writes the
    epoch-fractional rate lr_schedule (epoch + (i + 1) / num_batches) into
    the first parameter group only; every later group (the no-decay group
    when L2 regularization is configured) keeps its previous learning rate
    unchanged. -/
theorem C3_lr_update_group0 (sched : ℚ → ℚ) (epoch i num_batches : ℕ)
    (g : ParamGroup) (gs : List ParamGroup) :
    updateGroup0 (g :: gs) (stepLr sched epoch i num_batches) =
      { g with lr := stepLr sched epoch i num_batches } :: gs := rfl

lemma balancedCountsGo_closed (total : ℤ) (s : ℤ) (props : List ℚ)
    (h : props ≠ []) :
    balancedCountsGo total s props =
      (props.dropLast.map (fun p => ⌊p * (total : ℚ)⌋)) ++
        [total - s - ((props.dropLast.map (fun p => ⌊p * (total : ℚ)⌋)).sum)] := by
  induction props generalizing s with
  | nil => exact absurd rfl h
  | cons p rest ih =>
    cases rest with
    | nil => simp [balancedCountsGo]
    | cons q rest' =>
      rw [balancedCountsGo, ih (s + ⌊p * (total : ℚ)⌋) (by simp)]
      rw [List.dropLast_cons₂, List.map_cons, List.sum_cons, List.cons_append]
      congr 2
      simp only [List.cons.injEq, and_true]
      ring

/-- Claim C4: in the balanced assembly policy, for every nonempty list of
    positive integer ratios the per-attack resample counts are
    floor (proportion_i * 50000) for all attacks but the last, the last
    attack receives 50000 minus the sum of the earlier counts, and the
    counts sum to 50000 exactly. -/
theorem C4_balanced_counts (ratios : List ℕ) (hne : ratios ≠ [])
    (hpos : ∀ r ∈ ratios, 0 < r) :
    balancedCounts ratios 50000 =
      ((balancedProportions ratios).dropLast.map (fun p => ⌊p * (50000 : ℚ)⌋)) ++
        [50000 -
          ((balancedProportions ratios).dropLast.map (fun p => ⌊p * (50000 : ℚ)⌋)).sum] ∧
    (balancedCounts ratios 50000).sum = 50000 := by
  have hprops : balancedProportions ratios ≠ [] := by
    cases ratios with
    | nil => exact absurd rfl hne
    | cons r rs => simp [balancedProportions]
  have hclosed := balancedCountsGo_closed 50000 0 (balancedProportions ratios) hprops
  have hcast : (((50000 : ℤ)) : ℚ) = (50000 : ℚ) := by norm_num
  rw [hcast] at hclosed
  constructor
  · rw [balancedCounts, hclosed, sub_zero]
  · rw [balancedCounts, hclosed, List.sum_append, List.sum_cons, List.sum_nil]
    ring

/-- Witness for C4 on ratios 9 : 1 : 1 over three attacks. -/
theorem C4_balanced_counts_witness :
    balancedCounts [9, 1, 1] 50000 = [40909, 4545, 4546] ∧
    (balancedCounts [9, 1, 1] 50000).sum = 50000 := by
  have h := C4_balanced_counts [9, 1, 1] (by decide) (by decide)
  refine ⟨?_, h.2⟩
  rw [h.1]
  simp only [balancedProportions, List.map_cons, List.map_nil, List.sum_cons,
    List.sum_nil, List.dropLast, List.cons_append, List.nil_append]
  norm_num

/-- The per-entry normalization of lines 26-27 on a flattened image; the
    dataset statistics mu and std come from utils and are parameters. -/
def normalizeImg (mu std : ℚ) (img : List ℚ) : List ℚ :=
  img.map (fun a => (a - mu) / std)

/-- normalize applied to every image of a batch. -/
def normalizeBatch (mu std : ℚ) (x : List (List ℚ)) : List (List ℚ) :=
  x.map (normalizeImg mu std)

/-- The index of the first maximal entry of a logit row, as
    output.max(1)[1] yields per row. -/
def argmaxIdx : List ℚ → ℕ
  | [] => 0
  | [_] => 0
  | a :: b :: rest =>
    let j := argmaxIdx (b :: rest)
    if (b :: rest).getD j 0 > a then j + 1 else 0

/-- (output.max(1)[1] == y).sum().item(): how many rows have their argmax
    equal to the integer label. -/
def countCorrect (outputs : List (List ℚ)) (targets : List ℤ) : ℕ :=
  (List.zipWith (fun o t => if (argmaxIdx o : ℤ) = t then (1 : ℕ) else 0)
    outputs targets).sum

/-- The metric increments accumulated by one training step, lines 525-529. -/
structure StepMetrics where
  train_robust_loss : ℚ
  train_robust_acc : ℕ
  train_loss : ℚ
  train_acc : ℕ
  train_n : ℕ

/-- One training step body, lines 492-529, with the external collaborators
    as parameters: criterion is the cross-entropy loss on a batch of logits
    and labels, modelPre the classifier forward before the gradient step of
    line 517, modelPost the forward after it (the clean forward of line 519
    runs on updated weights), betaDraw and perm the randomness of the mixup
    branch, and l1AbsSum the sum of absolute non-bn non-bias parameters
    added when args.l1 is truthy, lines 510-513. Returns the robust loss
    that drives the gradient step and the metric increments. -/
def trainStep (criterion : List (List ℚ) → List ℤ → ℚ)
    (modelPre modelPost : List (List ℚ) → List (List ℚ))
    (mu std : ℚ) (mixup : Bool) (mixup_alpha betaDraw : ℚ) (perm : List ℕ)
    (l1 l1AbsSum : ℚ) (batch advBatch : Batch) : ℚ × StepMetrics :=
  let y := batch.target
  let mres := mixup_data batch.input y mixup_alpha betaDraw perm
  let X := if mixup then mres.mixed_x else batch.input
  let adv_input := normalizeBatch mu std advBatch.input
  let y_adv := advBatch.target
  let robust_output := modelPre adv_input
  let robust_loss0 :=
    if mixup then mixup_criterion criterion robust_output mres.y_a mres.y_b mres.lam
    else criterion robust_output y
  let robust_loss := if l1 ≠ 0 then robust_loss0 + l1 * l1AbsSum else robust_loss0
  let output := modelPost (normalizeBatch mu std X)
  let loss :=
    if mixup then mixup_criterion criterion output mres.y_a mres.y_b mres.lam
    else criterion output y
  (robust_loss,
   { train_robust_loss := robust_loss * ((y_adv.length : ℕ) : ℚ)
     train_robust_acc := countCorrect robust_output y_adv
     train_loss := loss * ((y.length : ℕ) : ℚ)
     train_acc := countCorrect output y
     train_n := y.length })

/-- The branch of the adversarial-set assembly dispatch, lines 229-333. -/
inductive AdvAssembly
  | single
  | loadedPair
  | allAttacks
  | combine
deriving Repr, DecidableEq

/-- Lines 229-333: which assembly branch an --attack value selects; the
    final else raises ValueError with message Unknown adversarial data. -/
def assembleBranch (attack : String) : Except String AdvAssembly :=
  if attack ∈ ATTACK_LIST then Except.ok AdvAssembly.single
  else if attack ∈ LOADED_ATTACKS then Except.ok AdvAssembly.loadedPair
  else if attack = "all" then Except.ok AdvAssembly.allAttacks
  else if attack = "combine" then Except.ok AdvAssembly.combine
  else Except.error "Unknown adversarial data"

/-- Externally visible effects of main in program order, restricted to what
    the configuration-error claims observe. -/
inductive Ev
  | advAssembled
  | modelCreated
  | optCreated
  | infoLog (msg : String)
  | initialEval
  | trainSteps
deriving Repr, DecidableEq

/-- The effect order of main: adversarial-set assembly (lines 229-333)
    precedes creation of the classifier (line 370) and of the optimizer
    (line 388); the eval-without-resume check (lines 444-447) follows them
    but precedes the initial evaluation loops (lines 456-478) and the epoch
    loop (line 481). A ValueError in assembly aborts the run with no later
    effect; the eval-without-resume case logs an informational message and
    returns normally with nothing evaluated and no training step; otherwise
    the run continues into evaluation, and training steps execute only when
    eval is off (lines 490-491). -/
def mainTrace (attack : String) (evalFlag : Bool) (resume : ℕ) :
    List Ev × Option String :=
  match assembleBranch attack with
  | Except.error e => ([], some e)
  | Except.ok _ =>
    let created := [Ev.advAssembled, Ev.modelCreated, Ev.optCreated]
    if evalFlag ∧ resume = 0 then
      (created ++
        [Ev.infoLog "No model loaded to evaluate, specify with --resume FNAME"],
       none)
    else
      (created ++ [Ev.initialEval] ++ (if evalFlag then [] else [Ev.trainSteps]),
       none)

/-- The content of the model_best.pth snapshot, lines 583-589 (the model
    state dict is external and omitted; the four metric scalars remain). -/
structure BestSnapshot where
  test_robust_acc : ℚ
  test_robust_loss : ℚ
  test_loss : ℚ
  test_acc : ℚ
deriving Repr, DecidableEq

/-- The save-best step at the end of an epoch, lines 582-590, on the epoch
    accumulators: correct counts tra (adversarial test) and ta (clean test),
    loss sums trl and tl, sample counts trn and tn, the in-memory tracker
    best and the current snapshot file. Returns the new tracker and the new
    file content. Line 590 divides the adversarial correct count by the
    clean test count tn. -/
def saveBest (tra trn : ℕ) (trl tl : ℚ) (ta tn : ℕ) (best : ℚ)
    (file : Option BestSnapshot) : ℚ × Option BestSnapshot :=
  if (tra : ℚ) / (trn : ℚ) > best then
    ((tra : ℚ) / (tn : ℚ),
     some { test_robust_acc := (tra : ℚ) / (trn : ℚ)
            test_robust_loss := trl / (trn : ℚ)
            test_loss := tl / (tn : ℚ)
            test_acc := (ta : ℚ) / (tn : ℚ) })
  else (best, file)

/-- The resume path, line 438: the tracker is reloaded from the snapshot key
    test_robust_acc. -/
def resumeBestAcc (file : BestSnapshot) : ℚ := file.test_robust_acc

/-- Claim C2: in a training step without mixup the robust loss that drives
    the gradient step is the criterion of the adversarial output against
    the positionally paired clean labels (plus the L1 penalty when
    configured), never against the adversarial labels, while the robust
    accuracy increment of the same step compares the adversarial output
    with the adversarial labels. -/
theorem C2_robust_loss_clean_labels
    (criterion : List (List ℚ) → List ℤ → ℚ)
    (modelPre modelPost : List (List ℚ) → List (List ℚ))
    (mu std mixup_alpha betaDraw : ℚ) (perm : List ℕ)
    (l1 l1AbsSum : ℚ) (batch advBatch : Batch) :
    (trainStep criterion modelPre modelPost mu std false mixup_alpha betaDraw
        perm l1 l1AbsSum batch advBatch).1 =
      criterion (modelPre (normalizeBatch mu std advBatch.input)) batch.target
        + (if l1 ≠ 0 then l1 * l1AbsSum else 0) ∧
    (trainStep criterion modelPre modelPost mu std false mixup_alpha betaDraw
        perm l1 l1AbsSum batch advBatch).2.train_robust_acc =
      countCorrect (modelPre (normalizeBatch mu std advBatch.input))
        advBatch.target := by
  constructor
  · by_cases hl : l1 ≠ 0 <;> simp [trainStep, hl]
  · rfl

/-- Claim C8: every --attack value outside the eleven named attacks, the
    three loaded-pair attacks and the strings all and combine makes the
    assembly dispatch raise ValueError, aborting main before the classifier
    or the optimizer is created. -/
theorem C8_unknown_attack_fatal (attack : String) (evalFlag : Bool)
    (resume : ℕ)
    (h1 : attack ∉ ATTACK_LIST) (h2 : attack ∉ LOADED_ATTACKS)
    (h3 : attack ≠ "all") (h4 : attack ≠ "combine") :
    mainTrace attack evalFlag resume = ([], some "Unknown adversarial data") ∧
    Ev.modelCreated ∉ (mainTrace attack evalFlag resume).1 ∧
    Ev.optCreated ∉ (mainTrace attack evalFlag resume).1 := by
  have hb : assembleBranch attack = Except.error "Unknown adversarial data" := by
    simp [assembleBranch, h1, h2, h3, h4]
  refine ⟨?_, ?_, ?_⟩ <;> simp [mainTrace, hb]

/-- Witness for C8 on the unknown attack name jsma. -/
theorem C8_unknown_attack_fatal_witness :
    mainTrace "jsma" false 0 = ([], some "Unknown adversarial data") ∧
    Ev.modelCreated ∉ (mainTrace "jsma" false 0).1 ∧
    Ev.optCreated ∉ (mainTrace "jsma" false 0).1 :=
  C8_unknown_attack_fatal "jsma" false 0 (by decide) (by decide)
    (by decide) (by decide)

/-- Claim C9: a run with --eval and without --resume performs a soft exit:
    the informational message is logged and main returns normally, with no
    exception, before any evaluation loop or training step. -/
theorem C9_eval_without_resume_soft_exit (attack : String) (b : AdvAssembly)
    (hok : assembleBranch attack = Except.ok b) :
    mainTrace attack true 0 =
      ([Ev.advAssembled, Ev.modelCreated, Ev.optCreated,
        Ev.infoLog "No model loaded to evaluate, specify with --resume FNAME"],
       none) ∧
    (mainTrace attack true 0).2 = none ∧
    Ev.initialEval ∉ (mainTrace attack true 0).1 ∧
    Ev.trainSteps ∉ (mainTrace attack true 0).1 := by
  refine ⟨?_, ?_, ?_, ?_⟩ <;> simp [mainTrace, hok]

/-- Witness for C9 with the default single attack pgd. -/
theorem C9_eval_without_resume_soft_exit_witness :
    mainTrace "pgd" true 0 =
      ([Ev.advAssembled, Ev.modelCreated, Ev.optCreated,
        Ev.infoLog "No model loaded to evaluate, specify with --resume FNAME"],
       none) ∧
    (mainTrace "pgd" true 0).2 = none ∧
    Ev.initialEval ∉ (mainTrace "pgd" true 0).1 ∧
    Ev.trainSteps ∉ (mainTrace "pgd" true 0).1 :=
  C9_eval_without_resume_soft_exit "pgd" AdvAssembly.single
    (by simp [assembleBranch, ATTACK_LIST])

/-- Claim C10: the CLI accepts eight --lr-schedule values, piecewisesmoothed
    and piecewisezoom among them, but the dispatch chain binds no schedule
    for those two, so the learning-rate lookup of the first executed
    training step raises the undefined-name error; for each of the other
    six policies a schedule is bound and that error branch is unreachable. -/
theorem C10_lr_schedule_dispatch (E nd : ℕ) (lrm lod : ℚ) (cosPi : ℚ → ℚ)
    (epoch i nb : ℕ) :
    "piecewisesmoothed" ∈ LR_SCHEDULE_CHOICES ∧
    "piecewisezoom" ∈ LR_SCHEDULE_CHOICES ∧
    lrScheduleFor "piecewisesmoothed" E lrm lod nd cosPi = none ∧
    lrScheduleFor "piecewisezoom" E lrm lod nd cosPi = none ∧
    stepLrLookup (lrScheduleFor "piecewisesmoothed" E lrm lod nd cosPi)
        epoch i nb =
      Except.error "NameError: name lr_schedule is not defined" ∧
    stepLrLookup (lrScheduleFor "piecewisezoom" E lrm lod nd cosPi)
        epoch i nb =
      Except.error "NameError: name lr_schedule is not defined" ∧
    (lrScheduleFor "superconverge" E lrm lod nd cosPi).isSome = true ∧
    (lrScheduleFor "piecewise" E lrm lod nd cosPi).isSome = true ∧
    (lrScheduleFor "linear" E lrm lod nd cosPi).isSome = true ∧
    (lrScheduleFor "onedrop" E lrm lod nd cosPi).isSome = true ∧
    (lrScheduleFor "multipledecay" E lrm lod nd cosPi).isSome = true ∧
    (lrScheduleFor "cosine" E lrm lod nd cosPi).isSome = true := by
  refine ⟨by decide, by decide, ?_, ?_, ?_, ?_, ?_, ?_, ?_, ?_, ?_, ?_⟩ <;>
    simp [lrScheduleFor, stepLrLookup]

/-- Claim C1 fails on the code at this input: with adversarial test counts
    test_robust_acc = 5 of test_robust_n = 10 and clean test count
    test_n = 5, an improving epoch writes the snapshot with stored
    test-robust-accuracy 1/2, but line 590 sets the in-memory tracker to
    the count divided by the clean test count, 1, which differs from the
    stored value that the resume path of line 438 would reload. -/
theorem C1_best_tracker_bug :
    (saveBest 5 10 0 0 0 5 0 none).1 = 1 ∧
    ((saveBest 5 10 0 0 0 5 0 none).2.map resumeBestAcc) = some (1/2) ∧
    ((1 : ℚ)) ≠ 1/2 := by
  refine ⟨?_, ?_, by norm_num⟩ <;> norm_num [saveBest, resumeBestAcc]

end AdvTrain
